import Mathlib

/-!
Verification development for the one-year-vault application.

The core under study is the vault lifecycle hook (the `useVault` hook found in
`vite.config.ts`, second document): a state machine over two persisted record
slots (a plaintext draft and an encrypted vault record) with bootstrap
(`checkStatus`), `saveDraft`, `lockVault` and `unlockVault` operations, built
on the crypto wrappers of `client/src/lib/crypto.ts` (here: deriveKey,
encryptContent, decryptContent, generateSalt, generateIV).

Embedding notes.
The crypto wrappers delegate to the Web Crypto platform API (PBKDF2 and
AES-GCM), which is not part of this repository; those primitives are modelled
symbolically (Dolev-Yao style): a derived key is the pair of password and
salt, a ciphertext records the plaintext, key and iv it was produced from,
and decryption succeeds exactly when key and iv match. The base64 transport
encoding (bufferToBase64 and base64ToBuffer) is a bijection on byte strings
used only for storage serialization; records here hold the decoded values
directly, so that layer is elided. The cryptographically secure random
source (`window.crypto.getRandomValues`) is modelled as an entropy stream
indexed by a draw counter. IndexedDB readwrite transactions are atomic per
the platform contract; the store commit is modelled as all-or-nothing, with
an environment flag to inject commit failure. Timestamps (`Date.now()`) are
natural numbers passed explicitly.
-/

namespace OneYearVault

/-- Byte strings (contents of a `Uint8Array`), as lists of naturals. -/
abbrev Bytes := List Nat

/-- Symbolic AES-GCM key as produced by `deriveKey` in crypto.ts: PBKDF2 is
deterministic in the password and salt, and is modelled as a free pairing of
the two (collisions between distinct password-salt pairs are cryptographically
negligible and absent in the symbolic model). -/
structure CryptoKey where
  password : String
  salt : Bytes
deriving DecidableEq

/-- Symbolic AES-GCM ciphertext: the authenticated encryption of `plaintext`
under `key` and `iv`. The authentication tag embedded in the ciphertext is
represented by the ciphertext remembering the key and iv it was made with. -/
structure Ciphertext where
  plaintext : String
  key : CryptoKey
  iv : Bytes
deriving DecidableEq

/-- crypto.ts `deriveKey(password, salt)`: PBKDF2-SHA256, 100000 iterations,
yielding an AES-GCM key; symbolically the pair of its inputs. -/
def deriveKey (password : String) (salt : Bytes) : CryptoKey :=
  ⟨password, salt⟩

/-- crypto.ts `encryptContent(content, key, iv)`: AES-GCM encryption,
symbolically tagging the plaintext with key and iv. -/
def encryptContent (content : String) (key : CryptoKey) (iv : Bytes) : Ciphertext :=
  ⟨content, key, iv⟩

/-- crypto.ts `decryptContent(ciphertext, key, iv)`: AES-GCM decryption;
authentication succeeds exactly when the key and iv match the ones the
ciphertext was produced with, otherwise the operation fails (`none`, the
WebCrypto OperationError on a failed tag check). -/
def decryptContent (c : Ciphertext) (key : CryptoKey) (iv : Bytes) : Option String :=
  if c.key = key ∧ c.iv = iv then some c.plaintext else none

/-- The draft record (`vaultContentSchema` in shared/schema.ts). -/
structure VaultContent where
  content : String
  lastUpdated : Nat
deriving DecidableEq

/-- The encrypted vault record (`encryptedVaultSchema` in shared/schema.ts).
In storage the ciphertext, iv and salt are base64 strings; here they are held
decoded (the base64 layer is a bijection and is elided). -/
structure EncryptedVault where
  ciphertext : Ciphertext
  iv : Bytes
  salt : Bytes
  lockedAt : Nat
deriving DecidableEq

/-- A raw stored value: either a record that passes its zod schema parse, or
a malformed value that makes `schema.parse` throw. -/
inductive RawRecord (α : Type) where
  | wellFormed (value : α)
  | malformed
deriving DecidableEq

/-- The IndexedDB database `vault-db`: the `draft` object store at key
`current` and the `locked` object store at key `vault_data`, each holding at
most one raw record. -/
structure Store where
  draft : Option (RawRecord VaultContent)
  locked : Option (RawRecord EncryptedVault)
deriving DecidableEq

/-- The in-memory `VaultState` of the hook. The source tag `open` is a Lean
keyword, rendered here as `opened`. -/
inductive VaultState where
  | loading
  | opened (content : String) (lastUpdated : Nat)
  | locked (lockedAt : Nat)
deriving DecidableEq

/-- Whether a state is the `open` state. -/
def VaultState.isOpened : VaultState → Bool
  | .opened _ _ => true
  | _ => false

/-- Execution environment: the entropy stream behind
`window.crypto.getRandomValues` (indexed by a draw counter), and fault flags
for the three failure sources of a lock transition caught by its try block:
random source unavailable, encryption failure, and commit (transaction)
failure. -/
structure Env where
  rng : Nat → Bytes
  randomOk : Bool
  encryptOk : Bool
  commitOk : Bool

/-- crypto.ts `generateSalt()`: 16 fresh bytes from the secure random source,
modelled as the entropy stream read at the current draw counter. -/
def generateSalt (env : Env) (ctr : Nat) : Bytes :=
  env.rng ctr

/-- crypto.ts `generateIV()`: 12 fresh bytes from the secure random source,
modelled as the entropy stream read at the current draw counter. -/
def generateIV (env : Env) (ctr : Nat) : Bytes :=
  env.rng ctr

/-- The fixed auto-lock date `new Date(2026, 0, 1)` (Jan 1, 2026) as a
millisecond epoch timestamp; only its comparison against `now` matters. -/
def lockDate : Nat := 1767225600000

/-- Result of `checkStatus` (bootstrap): the store, the state set by the
hook, and the advanced entropy draw counter. -/
structure BootstrapResult where
  store : Store
  state : VaultState
  ctr : Nat
deriving DecidableEq

/-- Result of `saveDraft`. -/
structure SaveResult where
  store : Store
  state : VaultState
deriving DecidableEq

/-- Result of `lockVault`: `result = none` on success, `some msg` when the
function throws `msg`; plus the store, state and advanced draw counter. -/
structure LockResult where
  result : Option String
  store : Store
  state : VaultState
  ctr : Nat
deriving DecidableEq

/-- Result of `unlockVault`: `result = none` on success, `some msg` when the
function throws `msg`. -/
structure UnlockResult where
  result : Option String
  store : Store
  state : VaultState
deriving DecidableEq

/-- Bootstrap `checkStatus` from vite.config.ts (the current hook): read the
locked slot first; if a well-formed encrypted record is present, the state is
`locked` with its `lockedAt` (a malformed one is logged and falls through).
Otherwise read the draft (malformed drafts reset to empty content and the
current time), and if `now` has reached the fixed lock date, auto-lock with
the preset passphrase DPBYDT: generate salt and iv, derive the key, encrypt,
and atomically put the encrypted record and delete the draft; on any failure
of the auto-lock the catch falls back to the open state. -/
def checkStatus (env : Env) (ctr : Nat) (store : Store) (now : Nat) : BootstrapResult :=
  match store.locked with
  | some (.wellFormed vault) => ⟨store, .locked vault.lockedAt, ctr⟩
  | _ =>
    let content :=
      match store.draft with
      | some (.wellFormed d) => d.content
      | _ => ""
    let lastUpdated :=
      match store.draft with
      | some (.wellFormed d) => d.lastUpdated
      | _ => now
    if lockDate ≤ now then
      if env.randomOk then
        let salt := generateSalt env ctr
        let iv := generateIV env (ctr + 1)
        let key := deriveKey "DPBYDT" salt
        if env.encryptOk then
          let encryptedBuffer := encryptContent content key iv
          let vaultData : EncryptedVault := ⟨encryptedBuffer, iv, salt, now⟩
          if env.commitOk then
            ⟨⟨none, some (.wellFormed vaultData)⟩, .locked now, ctr + 2⟩
          else
            ⟨store, .opened content lastUpdated, ctr + 2⟩
        else
          ⟨store, .opened content lastUpdated, ctr + 2⟩
      else
        ⟨store, .opened content lastUpdated, ctr⟩
    else
      ⟨store, .opened content lastUpdated, ctr⟩

/-- `saveDraft(content)` from vite.config.ts: guards only on the database
handle being present (modelled as given), then unconditionally puts a fresh
draft record, and updates the in-memory state only when it is `open`. -/
def saveDraft (store : Store) (state : VaultState) (content : String) (now : Nat) : SaveResult :=
  let data : VaultContent := ⟨content, now⟩
  ⟨{ store with draft := some (.wellFormed data) },
    match state with
    | .opened _ _ => .opened content now
    | st => st⟩

/-- `lockVault(password)` from vite.config.ts: early return unless the state
is `open`; generate fresh salt and iv, derive the key from the supplied
password, encrypt the current content, then atomically put the encrypted
record and delete the draft, and set the state to `locked`. Any failure in
the try block (random source, encryption, commit) is caught and rethrown as
the fixed message, leaving store and state unchanged (the transaction is
all-or-nothing). -/
def lockVault (env : Env) (ctr : Nat) (store : Store) (state : VaultState)
    (password : String) (now : Nat) : LockResult :=
  match state with
  | .opened content _ =>
    if env.randomOk then
      let salt := generateSalt env ctr
      let iv := generateIV env (ctr + 1)
      let key := deriveKey password salt
      if env.encryptOk then
        let encryptedBuffer := encryptContent content key iv
        let vaultData : EncryptedVault := ⟨encryptedBuffer, iv, salt, now⟩
        if env.commitOk then
          ⟨none, ⟨none, some (.wellFormed vaultData)⟩, .locked now, ctr + 2⟩
        else
          ⟨some "Failed to lock vault. Please try again.", store, state, ctr + 2⟩
      else
        ⟨some "Failed to lock vault. Please try again.", store, state, ctr + 2⟩
    else
      ⟨some "Failed to lock vault. Please try again.", store, state, ctr⟩
  | st => ⟨none, store, st, ctr⟩

/-- `unlockVault(password)` from vite.config.ts: early return unless the
state is `locked`; reject any password other than the preset DPBYDT before
touching the store; otherwise read the encrypted record (absence or a failed
schema parse throws, caught and rethrown as the generic message), derive the
key from the stored salt and the preset password DPBYDT, decrypt (an
authentication failure likewise surfaces as the generic message), and on
success atomically put the recovered draft and delete the encrypted record,
setting the state to `open`. -/
def unlockVault (store : Store) (state : VaultState) (password : String) (now : Nat) : UnlockResult :=
  match state with
  | .locked _ =>
    if password ≠ "DPBYDT" then
      ⟨some "Incorrect password. Please try again.", store, state⟩
    else
      match store.locked with
      | some (.wellFormed vault) =>
        let key := deriveKey "DPBYDT" vault.salt
        match decryptContent vault.ciphertext key vault.iv with
        | some content =>
          ⟨none, ⟨some (.wellFormed ⟨content, now⟩), none⟩, .opened content now⟩
        | none =>
          ⟨some "Incorrect password or corrupted data.", store, state⟩
      | _ =>
        ⟨some "Incorrect password or corrupted data.", store, state⟩
  | st => ⟨none, store, st⟩

/-- Decryption of the stored encrypted record under the key derived from the
stored salt and a given password: what an unlock that honoured the supplied
password would compute. -/
def decryptsWithDerived (store : Store) (password : String) : Option String :=
  match store.locked with
  | some (.wellFormed vault) =>
    decryptContent vault.ciphertext (deriveKey password vault.salt) vault.iv
  | _ => none

/-! Concrete environments and stores used by witnesses and counterexamples. -/

/-- A concrete fault-free environment whose entropy stream is injective. -/
def demoEnv : Env := ⟨fun n => [n], true, true, true⟩

/-- Demo environment with commit failure injected. -/
def demoCommitFailEnv : Env := ⟨fun n => [n], true, true, false⟩

/-- A store holding only a draft with content hello. -/
def helloDraftStore : Store := ⟨some (.wellFormed ⟨"hello", 0⟩), none⟩

/-- The store left behind by locking the hello draft with passphrase abc. -/
def abcStore : Store :=
  (lockVault demoEnv 0 helloDraftStore (.opened "hello" 0) "abc" 5).store

/-- The store left behind by locking the hello draft with the preset
passphrase DPBYDT. -/
def dpStore : Store :=
  (lockVault demoEnv 0 helloDraftStore (.opened "hello" 0) "DPBYDT" 5).store

/-- A concrete well-formed encrypted record. -/
def demoVault : EncryptedVault :=
  ⟨encryptContent "hello" (deriveKey "DPBYDT" [0]) [1], [1], [0], 3⟩

/-- A store holding only the demo encrypted record. -/
def lockedOnlyStore : Store := ⟨none, some (.wellFormed demoVault)⟩

/-- A store holding both the demo encrypted record and a stray draft. -/
def lockedAndDraftStore : Store :=
  ⟨some (.wellFormed ⟨"stray", 2⟩), some (.wellFormed demoVault)⟩

/-! Helper lemmas. -/

/-- Symbolic decryption inverts encryption under the same key and iv. -/
theorem decryptContent_encryptContent (s : String) (key : CryptoKey) (iv : Bytes) :
    decryptContent (encryptContent s key iv) key iv = some s := by
  simp [decryptContent, encryptContent]

/-- The demo entropy stream is injective. -/
theorem demoEnv_rng_injective : Function.Injective demoEnv.rng := by
  intro a b h
  simpa [demoEnv] using h

/-- The encrypted record stored by locking the hello draft with DPBYDT. -/
def dpVault : EncryptedVault :=
  ⟨encryptContent "hello" (deriveKey "DPBYDT" [0]) [1], [1], [0], 5⟩

/-! Claim theorems. -/

/-- C8: for every plaintext string s, passphrase p, salt and iv, decrypting
the encryption of s under the key derived from p and the salt, with the same
derived key and iv, returns exactly s. -/
theorem encrypt_decrypt_roundtrip (s p : String) (salt iv : Bytes) :
    decryptContent (encryptContent s (deriveKey p salt) iv) (deriveKey p salt) iv = some s :=
  decryptContent_encryptContent s (deriveKey p salt) iv

/-- C7: at bootstrap, when a well-formed encrypted record is present,
checkStatus returns the locked state carrying the record's lockedAt and
leaves the store untouched; the result does not depend on the draft slot or
on the current time and consumes no entropy, so the draft is not consulted
and no auto-lock evaluation occurs. -/
theorem checkStatus_encrypted_record_wins
    (env : Env) (ctr : Nat) (store : Store) (now : Nat) (vault : EncryptedVault)
    (h : store.locked = some (.wellFormed vault)) :
    checkStatus env ctr store now = ⟨store, .locked vault.lockedAt, ctr⟩ := by
  obtain ⟨dr, lk⟩ := store
  simp only [Store.locked] at h
  subst h
  rfl

/-- Witness for C7: a store holding both the demo encrypted record and a
stray draft, bootstrapped past the lock date, still yields the locked state
of the encrypted record with the store unchanged. -/
theorem checkStatus_encrypted_record_wins_witness :
    lockedAndDraftStore.locked = some (.wellFormed demoVault) ∧
    checkStatus demoEnv 0 lockedAndDraftStore (lockDate + 1) =
      ⟨lockedAndDraftStore, .locked demoVault.lockedAt, 0⟩ :=
  ⟨rfl, checkStatus_encrypted_record_wins demoEnv 0 lockedAndDraftStore (lockDate + 1)
    demoVault rfl⟩

/-- C10: unlockVault rejects every password other than the constant DPBYDT
before touching the store; when decryption does happen the key is derived
from DPBYDT, so a record whose ciphertext is keyed by any other password is
rejected for every supplied password with the store and state unchanged; and
a successful lockVault with passphrase pw stores a ciphertext keyed by pw. -/
theorem unlockVault_preset_only
    (store : Store) (la : Nat) (pw : String) (now : Nat) :
    (pw ≠ "DPBYDT" →
      unlockVault store (.locked la) pw now =
        ⟨some "Incorrect password. Please try again.", store, .locked la⟩) ∧
    (∀ vault, store.locked = some (.wellFormed vault) →
      vault.ciphertext.key.password ≠ "DPBYDT" →
      (unlockVault store (.locked la) pw now).result ≠ none ∧
      (unlockVault store (.locked la) pw now).store = store ∧
      (unlockVault store (.locked la) pw now).state = .locked la) ∧
    (∀ env ctr s c lu n,
      env.randomOk = true → env.encryptOk = true → env.commitOk = true →
      ∃ vault,
        (lockVault env ctr s (.opened c lu) pw n).store.locked =
          some (.wellFormed vault) ∧
        vault.ciphertext.key.password = pw) := by
  refine ⟨?_, ?_, ?_⟩
  · intro h
    unfold unlockVault
    rw [if_pos h]
  · intro vault hv hpw
    by_cases hp : pw = "DPBYDT"
    · subst hp
      have hd : decryptContent vault.ciphertext (deriveKey "DPBYDT" vault.salt) vault.iv
          = none := by
        unfold decryptContent
        rw [if_neg]
        intro hand
        exact hpw (by rw [hand.1]; rfl)
      unfold unlockVault
      rw [if_neg (by simp), hv]
      simp [hd]
    · have h1 : unlockVault store (.locked la) pw now =
          ⟨some "Incorrect password. Please try again.", store, .locked la⟩ := by
        unfold unlockVault
        rw [if_pos hp]
      rw [h1]
      exact ⟨by simp, rfl, rfl⟩
  · intro env ctr s c lu n hr he hc
    refine ⟨⟨encryptContent c (deriveKey pw (generateSalt env ctr)) (generateIV env (ctr + 1)),
      generateIV env (ctr + 1), generateSalt env ctr, n⟩, ?_, rfl⟩
    simp [lockVault, hr, he, hc]

/-- Witness for C10: concrete rejections on the store locked under abc, and a
concrete lockVault run storing a ciphertext keyed by the passphrase wrong. -/
theorem unlockVault_preset_only_witness :
    unlockVault abcStore (.locked 5) "wrong" 9 =
      ⟨some "Incorrect password. Please try again.", abcStore, .locked 5⟩ ∧
    (unlockVault abcStore (.locked 5) "DPBYDT" 9).result ≠ none ∧
    (unlockVault abcStore (.locked 5) "DPBYDT" 9).store = abcStore ∧
    (∃ vault,
      (lockVault demoEnv 0 helloDraftStore (.opened "hello" 0) "wrong" 5).store.locked =
        some (.wellFormed vault) ∧
      vault.ciphertext.key.password = "wrong") :=
  ⟨(unlockVault_preset_only abcStore 5 "wrong" 9).1 (by decide),
   ((unlockVault_preset_only abcStore 5 "DPBYDT" 9).2.1
      ⟨encryptContent "hello" (deriveKey "abc" [0]) [1], [1], [0], 5⟩
      (by decide) (by decide)).1,
   ((unlockVault_preset_only abcStore 5 "DPBYDT" 9).2.1
      ⟨encryptContent "hello" (deriveKey "abc" [0]) [1], [1], [0], 5⟩
      (by decide) (by decide)).2.1,
   (unlockVault_preset_only abcStore 5 "wrong" 9).2.2 demoEnv 0 helloDraftStore
      "hello" 0 5 rfl rfl rfl⟩

/-- C1 counterexample: after locking with passphrase abc, unlocking with the
same supplied passphrase abc is rejected by a built-in comparison, even
though decryption under the key derived from the stored salt and the supplied
passphrase would succeed — so the derived-key authentication failure is not
the mechanism that rejected it, and the key is not derived from the supplied
passphrase. -/
theorem unlock_not_derived_from_supplied_counterexample :
    decryptsWithDerived abcStore "abc" = some "hello" ∧
    unlockVault abcStore (.locked 5) "abc" 9 =
      ⟨some "Incorrect password. Please try again.", abcStore, .locked 5⟩ := by
  decide

/-- C1 amended: unlockVault first compares the supplied passphrase against
the built-in constant DPBYDT and rejects any other passphrase with the store
and state unchanged; when it does decrypt, it derives the key from the stored
salt and the constant DPBYDT, and the outcome is decided by that decryption's
authentication result. -/
theorem unlock_key_derived_from_preset
    (store : Store) (la : Nat) (pw : String) (now : Nat) :
    (pw ≠ "DPBYDT" →
      unlockVault store (.locked la) pw now =
        ⟨some "Incorrect password. Please try again.", store, .locked la⟩) ∧
    (∀ vault, store.locked = some (.wellFormed vault) →
      unlockVault store (.locked la) "DPBYDT" now =
        match decryptContent vault.ciphertext (deriveKey "DPBYDT" vault.salt) vault.iv with
        | some content =>
          ⟨none, ⟨some (.wellFormed ⟨content, now⟩), none⟩, .opened content now⟩
        | none => ⟨some "Incorrect password or corrupted data.", store, .locked la⟩) := by
  constructor
  · intro h
    unfold unlockVault
    rw [if_pos h]
  · intro vault hv
    unfold unlockVault
    rw [if_neg (by simp), hv]

/-- Witness for C1 amended: a non-preset password is rejected on the abc
store, and the preset password on the DPBYDT store decrypts successfully. -/
theorem unlock_key_derived_from_preset_witness :
    unlockVault abcStore (.locked 5) "wrongpw" 9 =
      ⟨some "Incorrect password. Please try again.", abcStore, .locked 5⟩ ∧
    unlockVault dpStore (.locked 5) "DPBYDT" 9 =
      ⟨none, ⟨some (.wellFormed ⟨"hello", 9⟩), none⟩, .opened "hello" 9⟩ :=
  ⟨(unlock_key_derived_from_preset abcStore 5 "wrongpw" 9).1 (by decide),
   (unlock_key_derived_from_preset dpStore 5 "DPBYDT" 9).2 dpVault (by decide)⟩

/-- C3 counterexample: with the state locked, saveDraft still writes the
supplied content to the persisted draft record, so the store is changed even
though the claim says both persisted records are left unchanged. -/
theorem save_while_locked_counterexample :
    (saveDraft lockedOnlyStore (.locked 3) "x" 7).state = .locked 3 ∧
    (saveDraft lockedOnlyStore (.locked 3) "x" 7).store ≠ lockedOnlyStore ∧
    (saveDraft lockedOnlyStore (.locked 3) "x" 7).store.draft =
      some (.wellFormed ⟨"x", 7⟩) := by
  decide

/-- C3 amended: for every state that is not Open, saveDraft leaves the
in-memory state and the persisted encrypted record unchanged and signals no
error, but it still writes the supplied content to the persisted draft
record. -/
theorem saveDraft_nonopen_writes_draft_only
    (store : Store) (state : VaultState) (content : String) (now : Nat)
    (h : state.isOpened = false) :
    (saveDraft store state content now).state = state ∧
    (saveDraft store state content now).store.locked = store.locked ∧
    (saveDraft store state content now).store.draft =
      some (.wellFormed ⟨content, now⟩) := by
  cases state with
  | opened c l => simp [VaultState.isOpened] at h
  | loading => exact ⟨rfl, rfl, rfl⟩
  | locked la => exact ⟨rfl, rfl, rfl⟩

/-- Witness for C3 amended: saving while locked keeps the state and the
encrypted record but writes the draft. -/
theorem saveDraft_nonopen_writes_draft_only_witness :
    (saveDraft lockedOnlyStore (.locked 3) "note" 7).state = .locked 3 ∧
    (saveDraft lockedOnlyStore (.locked 3) "note" 7).store.locked =
      lockedOnlyStore.locked ∧
    (saveDraft lockedOnlyStore (.locked 3) "note" 7).store.draft =
      some (.wellFormed ⟨"note", 7⟩) :=
  saveDraft_nonopen_writes_draft_only lockedOnlyStore (.locked 3) "note" 7 rfl

/-- C4: every successful lock transition from the open state leaves the draft
record absent and a well-formed encrypted record present, and every
successful unlock transition from the locked state leaves the encrypted
record absent and a well-formed draft record present, so exactly one of the
two records exists after either completed transition. -/
theorem transitions_keep_one_record
    (env : Env) (ctr : Nat) (store : Store) (content : String) (lu : Nat)
    (pw : String) (now : Nat) :
    ((lockVault env ctr store (.opened content lu) pw now).result = none →
      (lockVault env ctr store (.opened content lu) pw now).store.draft = none ∧
      ∃ vault, (lockVault env ctr store (.opened content lu) pw now).store.locked =
        some (.wellFormed vault)) ∧
    (∀ store2 la pw2 now2,
      (unlockVault store2 (.locked la) pw2 now2).result = none →
      (unlockVault store2 (.locked la) pw2 now2).store.locked = none ∧
      ∃ d, (unlockVault store2 (.locked la) pw2 now2).store.draft =
        some (.wellFormed d)) := by
  constructor
  · cases hr : env.randomOk <;> cases he : env.encryptOk <;> cases hc : env.commitOk <;>
      simp [lockVault, hr, he, hc]
  · intro store2 la pw2 now2
    dsimp only [unlockVault]
    by_cases hp : pw2 ≠ "DPBYDT"
    · rw [if_pos hp]
      intro h
      simp at h
    · rw [if_neg hp]
      split
      · split
        · intro _
          exact ⟨rfl, ⟨_, rfl⟩⟩
        · intro h
          simp at h
      · intro h
        simp at h

/-- Witness for C4: a concrete successful lock and a concrete successful
unlock each leave exactly one record. -/
theorem transitions_keep_one_record_witness :
    (lockVault demoEnv 0 helloDraftStore (.opened "hello" 0) "abc" 5).store.draft = none ∧
    (∃ vault, (lockVault demoEnv 0 helloDraftStore (.opened "hello" 0) "abc" 5).store.locked =
      some (.wellFormed vault)) ∧
    (unlockVault dpStore (.locked 5) "DPBYDT" 9).store.locked = none ∧
    (∃ d, (unlockVault dpStore (.locked 5) "DPBYDT" 9).store.draft =
      some (.wellFormed d)) := by
  obtain ⟨h1, h2⟩ := transitions_keep_one_record demoEnv 0 helloDraftStore "hello" 0 "abc" 5
  have ha := h1 (by decide)
  have hb := h2 dpStore 5 "DPBYDT" 9 (by decide)
  exact ⟨ha.1, ha.2, hb.1, hb.2⟩

/-- C5 counterexample: after locking with passphrase abc, an unlock with the
passphrase wrong signals an error and leaves the record in place, but a
subsequent unlock with the original correct passphrase abc also fails, so
the claim that it still succeeds does not hold on the code. -/
theorem wrong_passphrase_reunlock_counterexample :
    (unlockVault abcStore (.locked 5) "wrong" 9).result =
      some "Incorrect password. Please try again." ∧
    (unlockVault abcStore (.locked 5) "wrong" 9).store = abcStore ∧
    (unlockVault abcStore (.locked 5) "abc" 9).result ≠ none := by
  decide

/-- C5 amended: for a record locked with the preset passphrase DPBYDT, every
wrong passphrase makes unlockVault signal a wrong-passphrase error with the
state still locked and the encrypted record neither modified nor deleted, and
a subsequent unlock with DPBYDT succeeds and returns the original content. -/
theorem wrong_passphrase_preserves_record
    (store : Store) (vault : EncryptedVault) (content : String)
    (la now now2 : Nat) (pw : String)
    (hv : store.locked = some (.wellFormed vault))
    (hct : vault.ciphertext = encryptContent content (deriveKey "DPBYDT" vault.salt) vault.iv)
    (hpw : pw ≠ "DPBYDT") :
    unlockVault store (.locked la) pw now =
      ⟨some "Incorrect password. Please try again.", store, .locked la⟩ ∧
    unlockVault store (.locked la) "DPBYDT" now2 =
      ⟨none, ⟨some (.wellFormed ⟨content, now2⟩), none⟩, .opened content now2⟩ := by
  constructor
  · unfold unlockVault
    rw [if_pos hpw]
  · unfold unlockVault
    rw [if_neg (by simp), hv]
    dsimp only
    rw [hct, decryptContent_encryptContent]

/-- Witness for C5 amended: on the DPBYDT store, the passphrase wrong is
rejected without touching the record and DPBYDT still recovers hello. -/
theorem wrong_passphrase_preserves_record_witness :
    unlockVault dpStore (.locked 5) "wrong" 9 =
      ⟨some "Incorrect password. Please try again.", dpStore, .locked 5⟩ ∧
    unlockVault dpStore (.locked 5) "DPBYDT" 11 =
      ⟨none, ⟨some (.wellFormed ⟨"hello", 11⟩), none⟩, .opened "hello" 11⟩ :=
  wrong_passphrase_preserves_record dpStore dpVault "hello" 5 9 11 "wrong"
    (by decide) (by decide) (by decide)

/-- C6: on any failure during a lock transition from the open state the
function signals the fixed error with store and state unchanged; any injected
failure of the random source, the encryption, or the commit does surface as
an error; and in every run the store is either exactly its prior state or
exactly the fully transitioned state, never a partial write. -/
theorem lockVault_failure_atomic
    (env : Env) (ctr : Nat) (store : Store) (content : String) (lu : Nat)
    (pw : String) (now : Nat) :
    (∀ msg, (lockVault env ctr store (.opened content lu) pw now).result = some msg →
      (lockVault env ctr store (.opened content lu) pw now).store = store ∧
      (lockVault env ctr store (.opened content lu) pw now).state = .opened content lu ∧
      msg = "Failed to lock vault. Please try again.") ∧
    ((env.randomOk = false ∨ env.encryptOk = false ∨ env.commitOk = false) →
      (lockVault env ctr store (.opened content lu) pw now).result ≠ none) ∧
    ((lockVault env ctr store (.opened content lu) pw now).store = store ∨
      ((lockVault env ctr store (.opened content lu) pw now).store.draft = none ∧
        (lockVault env ctr store (.opened content lu) pw now).store.locked =
          some (.wellFormed ⟨encryptContent content (deriveKey pw (generateSalt env ctr))
            (generateIV env (ctr + 1)), generateIV env (ctr + 1),
            generateSalt env ctr, now⟩))) := by
  cases hr : env.randomOk <;> cases he : env.encryptOk <;> cases hc : env.commitOk <;>
    simp [lockVault, hr, he, hc]

/-- Witness for C6: with a commit failure injected, the lock attempt leaves
the store and state unchanged and surfaces an error. -/
theorem lockVault_failure_atomic_witness :
    (lockVault demoCommitFailEnv 0 helloDraftStore (.opened "hello" 0) "abc" 5).store =
      helloDraftStore ∧
    (lockVault demoCommitFailEnv 0 helloDraftStore (.opened "hello" 0) "abc" 5).state =
      .opened "hello" 0 ∧
    (lockVault demoCommitFailEnv 0 helloDraftStore (.opened "hello" 0) "abc" 5).result ≠
      none := by
  have h := lockVault_failure_atomic demoCommitFailEnv 0 helloDraftStore "hello" 0 "abc" 5
  have ha := h.1 "Failed to lock vault. Please try again." (by decide)
  exact ⟨ha.1, ha.2.1, h.2.1 (by decide)⟩

/-- C2: bootstrapping at or past the fixed lock date with only a well-formed
draft present yields the locked state, persists an encrypted record with the
draft deleted, and a subsequent unlock with the fixed auto-lock passphrase
DPBYDT succeeds and returns exactly the draft's content. -/
theorem bootstrap_autolock_roundtrip
    (env : Env) (ctr : Nat) (d : VaultContent) (now now2 : Nat)
    (hr : env.randomOk = true) (he : env.encryptOk = true) (hc : env.commitOk = true)
    (hnow : lockDate ≤ now) :
    (checkStatus env ctr ⟨some (.wellFormed d), none⟩ now).state = .locked now ∧
    (checkStatus env ctr ⟨some (.wellFormed d), none⟩ now).store.draft = none ∧
    (∃ vault, (checkStatus env ctr ⟨some (.wellFormed d), none⟩ now).store.locked =
      some (.wellFormed vault)) ∧
    unlockVault (checkStatus env ctr ⟨some (.wellFormed d), none⟩ now).store
        (checkStatus env ctr ⟨some (.wellFormed d), none⟩ now).state "DPBYDT" now2 =
      ⟨none, ⟨some (.wellFormed ⟨d.content, now2⟩), none⟩, .opened d.content now2⟩ := by
  have hcs : checkStatus env ctr ⟨some (.wellFormed d), none⟩ now =
      ⟨⟨none, some (.wellFormed ⟨encryptContent d.content
          (deriveKey "DPBYDT" (generateSalt env ctr)) (generateIV env (ctr + 1)),
        generateIV env (ctr + 1), generateSalt env ctr, now⟩)⟩, .locked now, ctr + 2⟩ := by
    simp [checkStatus, hr, he, hc, hnow]
  rw [hcs]
  refine ⟨rfl, rfl, ⟨_, rfl⟩, ?_⟩
  unfold unlockVault
  rw [if_neg (by simp)]
  simp only [decryptContent_encryptContent]

/-- Witness for C2: bootstrapping the diary entry draft exactly at the lock
date locks it, and unlocking with DPBYDT returns the diary entry. -/
theorem bootstrap_autolock_roundtrip_witness :
    (checkStatus demoEnv 0 ⟨some (.wellFormed ⟨"diary entry", 1⟩), none⟩ lockDate).state =
      .locked lockDate ∧
    (checkStatus demoEnv 0 ⟨some (.wellFormed ⟨"diary entry", 1⟩), none⟩ lockDate).store.draft =
      none ∧
    (∃ vault,
      (checkStatus demoEnv 0 ⟨some (.wellFormed ⟨"diary entry", 1⟩), none⟩ lockDate).store.locked =
        some (.wellFormed vault)) ∧
    unlockVault
        (checkStatus demoEnv 0 ⟨some (.wellFormed ⟨"diary entry", 1⟩), none⟩ lockDate).store
        (checkStatus demoEnv 0 ⟨some (.wellFormed ⟨"diary entry", 1⟩), none⟩ lockDate).state
        "DPBYDT" 7 =
      ⟨none, ⟨some (.wellFormed ⟨"diary entry", 7⟩), none⟩, .opened "diary entry" 7⟩ :=
  bootstrap_autolock_roundtrip demoEnv 0 ⟨"diary entry", 1⟩ lockDate 7 rfl rfl rfl le_rfl

/-- C9: under an injective entropy stream (the freshness guarantee of the
cryptographically secure random source), two successful lock transitions draw
their salts and ivs at disjoint stream positions, so the stored salts are
unequal, the stored ivs are unequal, and the keys derived from the same
passphrase and the two salts are unequal. -/
theorem lock_salts_and_keys_fresh
    (env : Env) (hinj : Function.Injective env.rng)
    (hr : env.randomOk = true) (he : env.encryptOk = true) (hc : env.commitOk = true)
    (ctr : Nat) (s1 s2 : Store) (c1 c2 : String) (l1 l2 : Nat) (p : String)
    (n1 n2 : Nat) :
    ∃ v1 v2,
      (lockVault env ctr s1 (.opened c1 l1) p n1).store.locked =
        some (.wellFormed v1) ∧
      (lockVault env (lockVault env ctr s1 (.opened c1 l1) p n1).ctr s2
          (.opened c2 l2) p n2).store.locked = some (.wellFormed v2) ∧
      v1.salt = generateSalt env ctr ∧ v1.iv = generateIV env (ctr + 1) ∧
      v2.salt = generateSalt env (ctr + 2) ∧ v2.iv = generateIV env (ctr + 3) ∧
      v1.salt ≠ v2.salt ∧ v1.iv ≠ v2.iv ∧
      deriveKey p v1.salt ≠ deriveKey p v2.salt := by
  have h1 : lockVault env ctr s1 (.opened c1 l1) p n1 =
      ⟨none, ⟨none, some (.wellFormed ⟨encryptContent c1 (deriveKey p (env.rng ctr))
          (env.rng (ctr + 1)), env.rng (ctr + 1), env.rng ctr, n1⟩)⟩,
        .locked n1, ctr + 2⟩ := by
    simp [lockVault, hr, he, hc, generateSalt, generateIV]
  have h2 : lockVault env (ctr + 2) s2 (.opened c2 l2) p n2 =
      ⟨none, ⟨none, some (.wellFormed ⟨encryptContent c2 (deriveKey p (env.rng (ctr + 2)))
          (env.rng (ctr + 3)), env.rng (ctr + 3), env.rng (ctr + 2), n2⟩)⟩,
        .locked n2, ctr + 4⟩ := by
    simp [lockVault, hr, he, hc, generateSalt, generateIV]
  have hsalt : env.rng ctr ≠ env.rng (ctr + 2) := by
    intro h
    have := hinj h
    omega
  have hiv : env.rng (ctr + 1) ≠ env.rng (ctr + 3) := by
    intro h
    have := hinj h
    omega
  rw [h1]
  rw [show (⟨none, ⟨none, some (.wellFormed ⟨encryptContent c1 (deriveKey p (env.rng ctr))
      (env.rng (ctr + 1)), env.rng (ctr + 1), env.rng ctr, n1⟩)⟩,
      .locked n1, ctr + 2⟩ : LockResult).ctr = ctr + 2 from rfl, h2]
  exact ⟨_, _, rfl, rfl, rfl, rfl, rfl, rfl, hsalt, hiv,
    fun h => hsalt (congrArg CryptoKey.salt h)⟩

/-- Witness for C9: two concrete lock runs with the same passphrase in the
demo environment store distinct salts, distinct ivs and distinct keys. -/
theorem lock_salts_and_keys_fresh_witness :
    ∃ v1 v2,
      (lockVault demoEnv 0 helloDraftStore (.opened "hello" 0) "abc" 5).store.locked =
        some (.wellFormed v1) ∧
      (lockVault demoEnv (lockVault demoEnv 0 helloDraftStore (.opened "hello" 0) "abc" 5).ctr
          helloDraftStore (.opened "hello" 0) "abc" 7).store.locked =
        some (.wellFormed v2) ∧
      v1.salt = generateSalt demoEnv 0 ∧ v1.iv = generateIV demoEnv 1 ∧
      v2.salt = generateSalt demoEnv 2 ∧ v2.iv = generateIV demoEnv 3 ∧
      v1.salt ≠ v2.salt ∧ v1.iv ≠ v2.iv ∧
      deriveKey "abc" v1.salt ≠ deriveKey "abc" v2.salt :=
  lock_salts_and_keys_fresh demoEnv demoEnv_rng_injective rfl rfl rfl 0
    helloDraftStore helloDraftStore "hello" "hello" 0 0 "abc" 5 7

end OneYearVault
